import Mathlib

/-!
Shallow embedding of the video content analysis pipeline
(`src/video_processor/ai/content_analyzer.py`) and proofs about it.

Modelling conventions:
* Python floats are modelled as rationals (`ℚ`); their arithmetic in the
  analyzer is plain field arithmetic plus `min`/`abs`, which `ℚ` models
  exactly.
* Python strings are modelled as `List Char`; the analyzer only splits on
  characters and searches for literal substrings, implemented below by
  structural recursion so that concrete runs evaluate inside the kernel.
* Each external step (the FFmpeg subprocesses, the OpenCV capture) is
  modelled by its observable outcome: `Except Unit output` for a subprocess
  that either yields diagnostic output or fails, `Option (List FrameScore)`
  for the frame sampler.  A Python exception that a function lets escape is
  modelled as `Except.error`.
-/

namespace VideoProc

/-- Split a character list at every occurrence of the character `c`,
Python's `str.split('\n')`: the result always has at least one piece and
empty pieces are kept. -/
def consHead (x : Char) : List (List Char) → List (List Char)
  | [] => [[x]]
  | y :: ys => (x :: y) :: ys

/-- Split on a single character, keeping empty pieces (Python `str.split(c)`). -/
def splitOnChar (c : Char) : List Char → List (List Char)
  | [] => [[]]
  | x :: xs =>
    if x = c then [] :: splitOnChar c xs
    else consHead x (splitOnChar c xs)

/-- Whether `p` occurs at the start of `s`. -/
def isPre : List Char → List Char → Bool
  | [], _ => true
  | _ :: _, [] => false
  | p :: ps, c :: cs => p == c && isPre ps cs

/-- The text after the first occurrence of the (nonempty) pattern `pat` in `s`,
or `none` when `pat` does not occur; models both Python's `pat in s` test and
the suffix used by `s.split(pat)[1]`. -/
def afterFirst (pat : List Char) : List Char → Option (List Char)
  | [] => none
  | c :: cs =>
    if isPre pat (c :: cs) then some (List.drop pat.length (c :: cs))
    else afterFirst pat cs

/-- Python's `pat in s` membership test for a nonempty pattern. -/
def containsPat (pat s : List Char) : Bool := (afterFirst pat s).isSome

/-- The text before the first occurrence of `pat` (all of `s` when `pat` is
absent); applied to the suffix returned by `afterFirst` it yields exactly
the piece `s.split(pat)[1]` of Python's split. -/
def upTo (pat : List Char) : List Char → List Char
  | [] => []
  | c :: cs => if isPre pat (c :: cs) then [] else c :: upTo pat cs

/-- Python `str.isspace` characters relevant to `str.split()` with no
arguments. -/
def isSpc (c : Char) : Bool :=
  c == ' ' || c == '\t' || c == '\n' || c == '\r' || c == '\x0b' || c == '\x0c'

/-- First whitespace-separated token of `s`, i.e. Python's `s.split()[0]`;
`none` when `s` is entirely whitespace (Python raises `IndexError`). -/
def firstTok (s : List Char) : Option (List Char) :=
  match s.dropWhile isSpc with
  | [] => none
  | c :: cs => some ((c :: cs).takeWhile (fun d => !isSpc d))

/-- Numeric value of a decimal digit character. -/
def digVal (c : Char) : Option ℕ := if c.isDigit then some (c.toNat - 48) else none

/-- Value of a digit string read as a base-10 integer (accumulator form);
`none` when a non-digit appears. -/
def natOfDigits : List Char → ℕ → Option ℕ
  | [], acc => some acc
  | c :: cs, acc =>
    match digVal c with
    | some d => natOfDigits cs (10 * acc + d)
    | none => none

/-- Value of a digit string read as a base-10 fraction `0.d₁d₂…`;
`none` when a non-digit appears. -/
def fracOfDigits : List Char → Option ℚ
  | [] => some 0
  | c :: cs =>
    match digVal c, fracOfDigits cs with
    | some d, some r => some (((d : ℚ) + r) / 10)
    | _, _ => none

/-- Unsigned decimal numeral `digits[.digits]`, `.digits`, or `digits.`. -/
def parseUnsigned (s : List Char) : Option ℚ :=
  let intDigits := s.takeWhile Char.isDigit
  let rest := s.dropWhile Char.isDigit
  match rest with
  | [] =>
    if intDigits.isEmpty then none
    else (natOfDigits intDigits 0).map (fun n => (n : ℚ))
  | '.' :: frac =>
    if intDigits.isEmpty && frac.isEmpty then none
    else
      match natOfDigits intDigits 0, fracOfDigits frac with
      | some i, some f => some ((i : ℚ) + f)
      | _, _ => none
  | _ => none

/-- Models Python `float()` restricted to optionally signed plain decimal
numerals — the format the `showinfo` filter emits for `pts_time` values.
Forms `float()` also accepts (exponents, `inf`, `nan`, underscores) are
treated as unparseable, which only matters for inputs the filter never
produces. -/
def parseFloatQ : List Char → Option ℚ
  | '-' :: rest => (parseUnsigned rest).map (fun q => -q)
  | '+' :: rest => parseUnsigned rest
  | s => parseUnsigned s

/-- The literal substring `pts_time:` searched for in filter output. -/
def ptsPat : List Char := "pts_time:".data

/-- Timestamp extracted from one line of showinfo output: the first
whitespace token of `line.split('pts_time:')[1]` read as a float.  `none`
models every `continue` path of the Python loop (`pts_time:` absent,
`IndexError`, `ValueError`). -/
def parseLine (line : List Char) : Option ℚ :=
  match afterFirst ptsPat line with
  | none => none
  | some rest =>
    match firstTok (upTo ptsPat rest) with
    | none => none
    | some tok => parseFloatQ tok

/-- Embedding of `_parse_scene_boundaries`: collect the per-line timestamps and sort them. -/
def parse_scene_boundaries (out : List Char) : List ℚ :=
  List.insertionSort (· ≤ ·) ((splitOnChar '\n' out).filterMap parseLine)

/-- Result record of scene analysis (`SceneAnalysis` dataclass). -/
structure SceneAnalysis where
  scene_boundaries : List ℚ
  scene_count : ℕ
  average_scene_length : ℚ
  key_moments : List ℚ
  confidence_scores : List ℚ

/-- Result record of quality assessment (`QualityMetrics` dataclass). -/
structure QualityMetrics where
  sharpness_score : ℚ
  brightness_score : ℚ
  contrast_score : ℚ
  noise_level : ℚ
  overall_quality : ℚ

/-- Embedding of `_generate_fallback_scenes`: duration-based scene boundaries used when
detection fails or reports nothing. -/
def generate_fallback_scenes (duration : ℚ) : List ℚ :=
  if duration ≤ 30 then []
  else if duration ≤ 120 then [duration / 2]
  else
    let num_scenes : ℤ := min ⌊duration / 30⌋ 10
    (List.range' 1 (num_scenes.toNat - 1)).map
      (fun i : ℕ => duration * ((i : ℚ) / (num_scenes : ℚ)))

/-- Embedding of `_fallback_scene_analysis`: scene analysis built when the detection
subprocess raised. -/
def fallback_scene_analysis (duration : ℚ) : SceneAnalysis :=
  let boundaries := generate_fallback_scenes duration
  { scene_boundaries := boundaries
    scene_count := boundaries.length + 1
    average_scene_length := duration / ((boundaries.length : ℚ) + 1)
    key_moments := [min 10 (duration * 0.2)]
    confidence_scores := List.replicate boundaries.length 0.5 }

/-- The straight-line tail of `_analyze_scenes` after the boundary list has
been fixed (detector-reported, or the duration-based substitute when the
detector reported nothing): derives count, average length, key moments and
confidence scores. -/
def analyze_scenes_core (scene_boundaries : List ℚ) (duration : ℚ) : SceneAnalysis :=
  let scene_count := scene_boundaries.length + 1
  let avg_length := if 0 < scene_count then duration / (scene_count : ℚ) else duration
  let key_moments0 := (scene_boundaries.take 5).map (fun b => b + avg_length * 0.3)
  let key_moments := if key_moments0.isEmpty then [min 10 (duration * 0.2)] else key_moments0
  { scene_boundaries := scene_boundaries
    scene_count := scene_count
    average_scene_length := avg_length
    key_moments := key_moments
    confidence_scores := List.replicate scene_boundaries.length 0.8 }

/-- Embedding of `_analyze_scenes`: the detector subprocess outcome is its observable
effect, `Except.ok` with the decoded stderr text or `Except.error` when any
step of the invocation raised. -/
def analyze_scenes (det : Except Unit (List Char)) (duration : ℚ) : SceneAnalysis :=
  match det with
  | Except.error _ => fallback_scene_analysis duration
  | Except.ok out =>
    let parsed := parse_scene_boundaries out
    analyze_scenes_core
      (if parsed.isEmpty then generate_fallback_scenes duration else parsed) duration

/-- Per-frame metric record appended to `quality_scores` for one frame the
sampler decoded; each field is the already clamped per-frame score computed
from the raster, which is outside this embedding. -/
structure FrameScore where
  sharpness : ℚ
  brightness : ℚ
  contrast : ℚ
  noise : ℚ

/-- Embedding of `_fallback_quality_assessment`: the fixed conservative metrics. -/
def fallback_quality_assessment : QualityMetrics :=
  { sharpness_score := 0.7
    brightness_score := 0.5
    contrast_score := 0.6
    noise_level := 0.3
    overall_quality := 0.6 }

/-- Arithmetic mean of one per-frame metric (`np.mean` over the score list). -/
def qmean (f : FrameScore → ℚ) (frames : List FrameScore) : ℚ :=
  (frames.map f).sum / (frames.length : ℚ)

/-- The weighted overall-quality combination computed in `_assess_quality`. -/
def overall_formula (s b c n : ℚ) : ℚ :=
  s * 0.3 + (1 - |b - 0.5| * 2) * 0.2 + c * 0.3 + (1 - n) * 0.2

/-- Embedding of `_assess_quality`: `sampled` is the observable outcome of the OpenCV
part — `none` when OpenCV is disabled, the capture fails to open, or the
analysis raises; otherwise the list of per-frame scores that were collected
(possibly empty when every seek-and-read failed). -/
def assess_quality (sampled : Option (List FrameScore)) : QualityMetrics :=
  match sampled with
  | none => fallback_quality_assessment
  | some [] => fallback_quality_assessment
  | some frames =>
    let avg_sharpness := qmean FrameScore.sharpness frames
    let avg_brightness := qmean FrameScore.brightness frames
    let avg_contrast := qmean FrameScore.contrast frames
    let avg_noise := qmean FrameScore.noise frames
    { sharpness_score := avg_sharpness
      brightness_score := avg_brightness
      contrast_score := avg_contrast
      noise_level := avg_noise
      overall_quality := overall_formula avg_sharpness avg_brightness avg_contrast avg_noise }

/-- Number of output lines containing the diagnostic token, the sole signal
`_parse_motion_data` consumes. -/
def count_pts_lines (out : List Char) : ℕ :=
  ((splitOnChar '\n' out).filter (fun l => containsPat ptsPat l)).length

/-- Embedding of `_parse_motion_data`: normalized motion intensity. -/
def parse_motion_intensity (out : List Char) : ℚ :=
  min ((count_pts_lines out : ℚ) / 100) 1

/-- Embedding of `_detect_motion`: pair `(has_motion, intensity)`; the filter subprocess
outcome is its observable effect, as in `analyze_scenes`. -/
def detect_motion (res : Except Unit (List Char)) : Bool × ℚ :=
  match res with
  | Except.ok out =>
    let intensity := parse_motion_intensity out
    (decide ((0.1 : ℚ) < intensity), intensity)
  | Except.error _ => (true, 0.5)

/-- Codec type of a probed stream. -/
inductive CodecType where
  | video
  | audio
  | other
deriving DecidableEq

/-- One probed stream; `width`/`height` are `none` when the key is absent
from the probe dictionary (Python `KeyError`). -/
structure StreamInfo where
  codec_type : CodecType
  width : Option ℤ
  height : Option ℤ

/-- Probed metadata: the container tag key names and the stream list. -/
structure ProbeInfo where
  format_tag_keys : List (List Char)
  streams : List StreamInfo

/-- ASCII lowercase of a string (Python `str.lower` on the tag names used). -/
def lowerStr (s : List Char) : List Char := s.map Char.toLower

/-- The spherical indicator key fragments scanned for. -/
def spherical_indicators : List (List Char) :=
  ["Spherical".data, "spherical-video".data, "SphericalVideo".data,
   "ProjectionType".data, "projection_type".data]

/-- Case-insensitive scan of the format tag keys for a spherical indicator. -/
def has_spherical_tag (tags : List (List Char)) : Bool :=
  tags.any (fun tag =>
    spherical_indicators.any (fun ind => containsPat (lowerStr ind) (lowerStr tag)))

/-- Embedding of `_detect_360_video`.  The `except` clause catches `KeyError`,
`ValueError` and `StopIteration` only, so a zero height reaches the division
and the resulting `ZeroDivisionError` escapes, modelled as `Except.error`. -/
def detect_360_video (p : ProbeInfo) : Except Unit Bool :=
  if has_spherical_tag p.format_tag_keys then Except.ok true
  else
    match p.streams.find? (fun s => s.codec_type = CodecType.video) with
    | none => Except.ok false
    | some vs =>
      match vs.width, vs.height with
      | some w, some h =>
        if h = 0 then Except.error ()
        else
          let aspect : ℚ := (w : ℚ) / (h : ℚ)
          Except.ok (decide (1.9 ≤ aspect ∧ aspect ≤ 2.1))
      | _, _ => Except.ok false

/-- Embedding of `_recommend_thumbnails`: Python's `sorted(list(set(recs)))[:5]`;
`insertionSort` of `dedup` is the ascending enumeration of the distinct
collected values. -/
def recommend_thumbnails (scenes : SceneAnalysis) (quality : QualityMetrics)
    (duration : ℚ) : List ℚ :=
  let recs := scenes.key_moments.take 3
  let recs := recs ++ (if 30 < duration ∧ 0.5 < quality.overall_quality
    then [min 5 (duration * 0.1)] else [])
  let recs := recs ++ (if 60 < duration then [duration / 2] else [])
  (List.insertionSort (· ≤ ·) recs.dedup).take 5

/-- Concrete evaluation of `Char.toNat` at the digit `'9'`. -/
theorem toNat_nine : Char.toNat '9' = 57 := rfl

/-- Concrete evaluation of `Char.toNat` at the digit `'5'`. -/
theorem toNat_five : Char.toNat '5' = 53 := rfl

/-- Evaluation of the boundary decoder on the one-line output `pts_time:99`. -/
theorem parse_single_99 : parse_scene_boundaries "pts_time:99".data = [99] := by
  norm_num [parse_scene_boundaries, splitOnChar, consHead, parseLine, afterFirst, isPre,
    ptsPat, upTo, firstTok, isSpc, parseFloatQ, parseUnsigned, natOfDigits, fracOfDigits,
    digVal, toNat_nine, toNat_five, List.insertionSort, List.orderedInsert, List.filterMap,
    List.dropWhile, List.takeWhile]

/-- Evaluation of the boundary decoder on two lines that report the same
timestamp. -/
theorem parse_repeated_5 :
    parse_scene_boundaries "a pts_time:5 x\nb pts_time:5 y".data = [5, 5] := by
  norm_num [parse_scene_boundaries, splitOnChar, consHead, parseLine, afterFirst, isPre,
    ptsPat, upTo, firstTok, isSpc, parseFloatQ, parseUnsigned, natOfDigits, fracOfDigits,
    digVal, toNat_nine, toNat_five, List.insertionSort, List.orderedInsert, List.filterMap,
    List.dropWhile, List.takeWhile]

/-- Evaluation of the boundary decoder on empty detector output. -/
theorem parse_empty : parse_scene_boundaries ([] : List Char) = [] := by
  norm_num [parse_scene_boundaries, splitOnChar, parseLine, afterFirst, ptsPat,
    List.filterMap, List.insertionSort]

/-- C9 counterexample: on detector output with a repeated `pts_time` value the
boundary sequence is `[5, 5]`, which is not strictly increasing. -/
theorem C9_counterexample :
    parse_scene_boundaries "a pts_time:5 x\nb pts_time:5 y".data = [5, 5] ∧
    ¬ List.Sorted (· < ·) (parse_scene_boundaries "a pts_time:5 x\nb pts_time:5 y".data) := by
  refine ⟨parse_repeated_5, ?_⟩
  rw [parse_repeated_5]
  simp [List.sorted_cons]

/-- C9 (amended): for every diagnostic output of the content-change detector
the produced boundary sequence is sorted ascending (non-strictly; repeated
`pts_time` values yield equal adjacent boundaries). -/
theorem C9_boundaries_sorted (out : List Char) :
    List.Sorted (· ≤ ·) (parse_scene_boundaries out) := by
  unfold parse_scene_boundaries
  exact List.sorted_insertionSort _ _

/-- C7: on motion-filter output the intensity is `min(count/100, 1)` over the
number of lines containing `pts_time:`, `has_motion` holds exactly when the
intensity exceeds `0.1`, and a failed estimation step yields exactly
`(true, 0.5)` with no error propagated. -/
theorem C7_motion (out : List Char) :
    detect_motion (Except.ok out) =
      (decide ((0.1 : ℚ) < min ((count_pts_lines out : ℚ) / 100) 1),
        min ((count_pts_lines out : ℚ) / 100) 1) ∧
    ((detect_motion (Except.ok out)).1 = true ↔
      (0.1 : ℚ) < (detect_motion (Except.ok out)).2) ∧
    detect_motion (Except.error ()) = (true, 0.5) := by
  refine ⟨rfl, ?_, rfl⟩
  simp [detect_motion, parse_motion_intensity]

/-- C1 counterexample: on the fallback path the returned overall score is the
constant `0.6`, while the weighted combination of the returned component
scores is `0.73`. -/
theorem C1_counterexample :
    assess_quality none = fallback_quality_assessment ∧
    fallback_quality_assessment.overall_quality ≠
      overall_formula fallback_quality_assessment.sharpness_score
        fallback_quality_assessment.brightness_score
        fallback_quality_assessment.contrast_score
        fallback_quality_assessment.noise_level := by
  refine ⟨rfl, ?_⟩
  norm_num [fallback_quality_assessment, overall_formula]

/-- C1 (amended): on the frame-sampling path with at least one sampled frame
the overall score is the fixed weighted combination of the returned component
scores; both no-sampling paths return the fixed fallback metrics (whose
overall `0.6` is not the weighted combination of its components). -/
theorem C1_overall_weighted (frames : List FrameScore) (h : frames ≠ []) :
    (assess_quality (some frames)).overall_quality =
      overall_formula (assess_quality (some frames)).sharpness_score
        (assess_quality (some frames)).brightness_score
        (assess_quality (some frames)).contrast_score
        (assess_quality (some frames)).noise_level ∧
    assess_quality none = fallback_quality_assessment ∧
    assess_quality (some []) = fallback_quality_assessment := by
  obtain ⟨f, fs, rfl⟩ := List.exists_cons_of_ne_nil h
  exact ⟨rfl, rfl, rfl⟩

/-- Witness for `C1_overall_weighted` at one concrete frame score. -/
theorem C1_overall_weighted_witness :
    (assess_quality (some [⟨1, 1, 1, 1⟩])).overall_quality =
      overall_formula (assess_quality (some [⟨1, 1, 1, 1⟩])).sharpness_score
        (assess_quality (some [⟨1, 1, 1, 1⟩])).brightness_score
        (assess_quality (some [⟨1, 1, 1, 1⟩])).contrast_score
        (assess_quality (some [⟨1, 1, 1, 1⟩])).noise_level :=
  (C1_overall_weighted [⟨1, 1, 1, 1⟩] (by simp)).1

/-- C2 counterexample: with no spherical tag key and a probed video stream of
height `0`, the detector raises (`ZeroDivisionError` is not in the caught
exception tuple) instead of returning false. -/
theorem C2_counterexample :
    detect_360_video ⟨[], [⟨CodecType.video, some 1920, some 0⟩]⟩ = Except.error () := rfl

/-- C2 (amended): with no spherical tag key, a failed stream lookup (no video
stream, or missing width/height key) yields `false`, but a zero-height video
stream makes the division raise and that error escapes the detector. -/
theorem C2_detect_360_errors (p : ProbeInfo)
    (htag : has_spherical_tag p.format_tag_keys = false) :
    (p.streams.find? (fun s => s.codec_type = CodecType.video) = none →
      detect_360_video p = Except.ok false) ∧
    (∀ vs, p.streams.find? (fun s => s.codec_type = CodecType.video) = some vs →
      ((vs.width = none ∨ vs.height = none) → detect_360_video p = Except.ok false) ∧
      (∀ w, vs.width = some w → vs.height = some 0 →
        detect_360_video p = Except.error ())) := by
  constructor
  · intro hn
    simp [detect_360_video, htag, hn]
  · intro vs hv
    constructor
    · rintro (hw | hh)
      · simp [detect_360_video, htag, hv, hw]
      · rcases hvw : vs.width with _ | w <;>
          simp [detect_360_video, htag, hv, hvw, hh]
    · intro w hw hh
      simp [detect_360_video, htag, hv, hw, hh]

/-- Witness for `C2_detect_360_errors` on a probe with no streams. -/
theorem C2_detect_360_errors_witness :
    detect_360_video ⟨[], []⟩ = Except.ok false :=
  (C2_detect_360_errors ⟨[], []⟩ rfl).1 rfl

/-- Unfolding equation: on the error path the fallback analysis is returned. -/
theorem analyze_scenes_error_eq (d : ℚ) :
    analyze_scenes (Except.error ()) d = fallback_scene_analysis d := rfl

/-- Unfolding equation: on the ok path the straight-line tail runs on either
the parsed boundaries or, when those are empty, the duration-based ones. -/
theorem analyze_scenes_ok_eq (out : List Char) (d : ℚ) :
    analyze_scenes (Except.ok out) d =
      analyze_scenes_core
        (if (parse_scene_boundaries out).isEmpty then generate_fallback_scenes d
         else parse_scene_boundaries out) d := rfl

/-- The boundary field of the straight-line tail is its input list. -/
theorem core_boundaries (B : List ℚ) (d : ℚ) :
    (analyze_scenes_core B d).scene_boundaries = B := rfl

/-- The average scene length computed by the straight-line tail. -/
theorem core_avg (B : List ℚ) (d : ℚ) :
    (analyze_scenes_core B d).average_scene_length = d / ((B.length : ℚ) + 1) := by
  simp only [analyze_scenes_core, Nat.zero_lt_succ, if_pos]
  push_cast
  rfl

/-- Key moments of the straight-line tail on an empty boundary list. -/
theorem core_keys_nil (d : ℚ) :
    (analyze_scenes_core [] d).key_moments = [min 10 (d * 0.2)] := rfl

/-- Key moments of the straight-line tail on a non-empty boundary list. -/
theorem core_keys_cons (b : ℚ) (bs : List ℚ) (d : ℚ) :
    (analyze_scenes_core (b :: bs) d).key_moments =
      ((b :: bs).take 5).map
        (fun x => x + (analyze_scenes_core (b :: bs) d).average_scene_length * 0.3) := rfl

/-- Confidence scores of the straight-line tail. -/
theorem core_conf (B : List ℚ) (d : ℚ) :
    (analyze_scenes_core B d).confidence_scores = List.replicate B.length 0.8 := rfl

/-- C4 counterexample: when the detector runs without error but yields zero
boundaries, the duration-based fallback boundaries are used yet each
confidence score is `0.8`, not `0.5`. -/
theorem C4_counterexample :
    (analyze_scenes (Except.ok []) 100).scene_boundaries = generate_fallback_scenes 100 ∧
    generate_fallback_scenes 100 = [50] ∧
    (analyze_scenes (Except.ok []) 100).confidence_scores = [0.8] := by
  have hf : generate_fallback_scenes 100 = [50] := by
    norm_num [generate_fallback_scenes]
  refine ⟨?_, hf, ?_⟩ <;>
    simp [analyze_scenes_ok_eq, parse_empty, hf, core_boundaries, core_conf]

/-- C4 (amended): every confidence score is `0.8` whenever the detector
subprocess ran without error (including when its empty result forced the
duration-based fallback boundaries), and `0.5` exactly when the detector
raised. -/
theorem C4_confidence (out : List Char) (d : ℚ) :
    (analyze_scenes (Except.ok out) d).confidence_scores =
      List.replicate (analyze_scenes (Except.ok out) d).scene_boundaries.length 0.8 ∧
    (analyze_scenes (Except.error ()) d).confidence_scores =
      List.replicate (analyze_scenes (Except.error ()) d).scene_boundaries.length 0.5 :=
  ⟨rfl, rfl⟩

/-- C5 (amended): when the detector ran without error, the key moments are
`boundary + averageSceneLength*0.3` over the first 5 boundaries when the
boundary list (detector-reported or substituted) is non-empty, and the single
value `min(10, duration*0.2)` when it is empty; but on the detector-error
path the key moments are always the single value `min(10, duration*0.2)`,
even when the fallback boundary list is non-empty. -/
theorem C5_key_moments (out : List Char) (d : ℚ) :
    ((analyze_scenes (Except.ok out) d).scene_boundaries ≠ [] →
      (analyze_scenes (Except.ok out) d).key_moments =
        ((analyze_scenes (Except.ok out) d).scene_boundaries.take 5).map
          (fun b => b + (analyze_scenes (Except.ok out) d).average_scene_length * 0.3)) ∧
    ((analyze_scenes (Except.ok out) d).scene_boundaries = [] →
      (analyze_scenes (Except.ok out) d).key_moments = [min 10 (d * 0.2)]) ∧
    (analyze_scenes (Except.error ()) d).key_moments = [min 10 (d * 0.2)] := by
  rw [analyze_scenes_ok_eq]
  generalize (if (parse_scene_boundaries out).isEmpty then generate_fallback_scenes d
    else parse_scene_boundaries out) = B
  refine ⟨?_, ?_, rfl⟩
  · intro hne
    rw [core_boundaries] at hne
    obtain ⟨b, bs, rfl⟩ := List.exists_cons_of_ne_nil hne
    rw [core_keys_cons, core_boundaries]
  · intro hnil
    rw [core_boundaries] at hnil
    subst hnil
    exact core_keys_nil d

/-- Witness for `C5_key_moments`: concrete run where the substituted fallback
boundary list `[50]` is non-empty and the key moments follow the boundary
formula. -/
theorem C5_key_moments_witness :
    (analyze_scenes (Except.ok []) 100).key_moments =
      ((analyze_scenes (Except.ok []) 100).scene_boundaries.take 5).map
        (fun b => b + (analyze_scenes (Except.ok []) 100).average_scene_length * 0.3) := by
  refine (C5_key_moments [] 100).1 ?_
  rw [analyze_scenes_ok_eq, core_boundaries, parse_empty]
  norm_num [generate_fallback_scenes]

/-- C5 counterexample: on the detector-error path with duration `100` the
boundary list `[50]` is non-empty, yet the key moments are `[10]` rather than
`[50 + 50*0.3] = [65]`. -/
theorem C5_counterexample :
    analyze_scenes (Except.error ()) 100 = fallback_scene_analysis 100 ∧
    (fallback_scene_analysis 100).scene_boundaries = [50] ∧
    (fallback_scene_analysis 100).average_scene_length = 50 ∧
    (fallback_scene_analysis 100).key_moments = [10] ∧
    (10 : ℚ) ≠ 50 + 50 * 0.3 := by
  have hf : generate_fallback_scenes 100 = [50] := by
    norm_num [generate_fallback_scenes]
  refine ⟨rfl, ?_, ?_, ?_, by norm_num⟩ <;>
    norm_num [fallback_scene_analysis, hf]

/-- C3: the duration-based fallback produces no boundaries for `d ≤ 30`, the
single mid-point for `30 < d ≤ 120`, and for `d > 120` the evenly spaced
boundaries `d*i/numScenes` for `i = 1..numScenes-1` with
`numScenes = min(floor(d/30), 10)` — at most 9 boundaries. -/
theorem C3_duration_fallback (d : ℚ) (h : 0 ≤ d) :
    (d ≤ 30 → generate_fallback_scenes d = []) ∧
    (30 < d → d ≤ 120 → generate_fallback_scenes d = [d / 2]) ∧
    (120 < d →
      generate_fallback_scenes d =
        (List.range' 1 ((min ⌊d / 30⌋ 10).toNat - 1)).map
          (fun i : ℕ => d * ((i : ℚ) / ((min ⌊d / 30⌋ 10 : ℤ) : ℚ))) ∧
      (generate_fallback_scenes d).length ≤ 9) := by
  refine ⟨fun hd => by simp [generate_fallback_scenes, hd], fun h1 h2 => ?_, fun h3 => ?_⟩
  · simp only [generate_fallback_scenes, if_neg (not_le.mpr h1), if_pos h2]
  · have h1 : ¬ d ≤ 30 := by linarith
    have h2 : ¬ d ≤ 120 := by linarith
    have he : generate_fallback_scenes d =
        (List.range' 1 ((min ⌊d / 30⌋ 10).toNat - 1)).map
          (fun i : ℕ => d * ((i : ℚ) / ((min ⌊d / 30⌋ 10 : ℤ) : ℚ))) := by
      simp only [generate_fallback_scenes, if_neg h1, if_neg h2]
    refine ⟨he, ?_⟩
    rw [he, List.length_map, List.length_range']
    have hm : min ⌊d / 30⌋ 10 ≤ 10 := min_le_right _ _
    omega

/-- Witness for `C3_duration_fallback` at duration 20. -/
theorem C3_duration_fallback_witness : generate_fallback_scenes 20 = [] :=
  (C3_duration_fallback 20 (by norm_num)).1 (by norm_num)

/-- C6: the thumbnail recommendation is always sorted ascending, free of
duplicate values, and of length at most 5, for every scene analysis, quality
metrics and duration. -/
theorem C6_thumbnails (s : SceneAnalysis) (q : QualityMetrics) (d : ℚ) :
    List.Sorted (· ≤ ·) (recommend_thumbnails s q d) ∧
    (recommend_thumbnails s q d).Nodup ∧
    (recommend_thumbnails s q d).length ≤ 5 := by
  unfold recommend_thumbnails
  refine ⟨?_, ?_, ?_⟩
  · exact List.Pairwise.sublist (List.take_sublist 5 _) (List.sorted_insertionSort _ _)
  · exact List.Nodup.sublist (List.take_sublist 5 _)
      (((List.perm_insertionSort (· ≤ ·) _).nodup_iff).mpr (List.nodup_dedup _))
  · simpa [List.length_take] using min_le_left 5 _

/-- If the scene analysis has at least one key moment then the thumbnail
recommendation is non-empty. -/
theorem recommend_thumbnails_ne_nil (s : SceneAnalysis) (q : QualityMetrics) (d : ℚ)
    (h : s.key_moments ≠ []) : recommend_thumbnails s q d ≠ [] := by
  unfold recommend_thumbnails
  have h3 : s.key_moments.take 3 ≠ [] := by
    simpa [List.take_eq_nil_iff] using h
  have hbase :
      (s.key_moments.take 3 ++
        (if 30 < d ∧ 0.5 < q.overall_quality then [min 5 (d * 0.1)] else []) ++
        (if 60 < d then [d / 2] else [])) ≠ [] := by
    intro heq
    exact h3 (List.append_eq_nil.mp ((List.append_eq_nil.mp heq).1)).1
  obtain ⟨x, hx⟩ := List.exists_mem_of_ne_nil _ hbase
  have hx1 : x ∈ List.insertionSort (· ≤ ·)
      (s.key_moments.take 3 ++
        (if 30 < d ∧ 0.5 < q.overall_quality then [min 5 (d * 0.1)] else []) ++
        (if 60 < d then [d / 2] else [])).dedup := by
    rw [List.mem_insertionSort]
    exact List.mem_dedup.mpr hx
  have hlen := List.length_pos.mpr (List.ne_nil_of_mem hx1)
  rw [← List.length_pos, List.length_take]
  omega

/-- C10: on every path (detector boundaries, zero detector boundaries, and
detector error) the key-moment list is non-empty, and therefore the thumbnail
recommendation of a completed analysis is non-empty. -/
theorem C10_nonempty (det : Except Unit (List Char)) (d : ℚ) (q : QualityMetrics) :
    (analyze_scenes det d).key_moments ≠ [] ∧
    recommend_thumbnails (analyze_scenes det d) q d ≠ [] := by
  have hkm : (analyze_scenes det d).key_moments ≠ [] := by
    cases det with
    | error e =>
      cases e
      rw [analyze_scenes_error_eq]
      simp [fallback_scene_analysis]
    | ok out =>
      rw [analyze_scenes_ok_eq]
      generalize (if (parse_scene_boundaries out).isEmpty then generate_fallback_scenes d
        else parse_scene_boundaries out) = B
      cases B with
      | nil => simp [core_keys_nil]
      | cons b bs =>
        rw [core_keys_cons]
        simp [List.take_eq_nil_iff]
  exact ⟨hkm, recommend_thumbnails_ne_nil _ q d hkm⟩

/-- Duration-based fallback boundaries all lie within `[0, duration]`. -/
theorem fallback_scenes_bounds (d : ℚ) (hd : 0 ≤ d) :
    ∀ b ∈ generate_fallback_scenes d, 0 ≤ b ∧ b ≤ d := by
  intro b hb
  unfold generate_fallback_scenes at hb
  split_ifs at hb with h1 h2
  · simp at hb
  · simp at hb
    subst hb
    constructor
    · linarith
    · linarith
  · simp only [List.mem_map, List.mem_range'_1] at hb
    obtain ⟨i, hi, rfl⟩ := hb
    have hd4 : (4 : ℤ) ≤ ⌊d / 30⌋ := by
      rw [Int.le_floor]
      push_cast
      linarith
    have hn4 : (4 : ℤ) ≤ min ⌊d / 30⌋ 10 := le_min hd4 (by norm_num)
    have hnq : (0 : ℚ) < ((min ⌊d / 30⌋ 10 : ℤ) : ℚ) := by
      exact_mod_cast lt_of_lt_of_le (by norm_num) hn4
    have hiq : (i : ℚ) ≤ ((min ⌊d / 30⌋ 10 : ℤ) : ℚ) := by
      have hiz : (i : ℤ) ≤ min ⌊d / 30⌋ 10 := by
        have h2 := hi.2
        omega
      exact_mod_cast hiz
    constructor
    · exact mul_nonneg (by linarith) (div_nonneg (by positivity) hnq.le)
    · have hfrac : (i : ℚ) / ((min ⌊d / 30⌋ 10 : ℤ) : ℚ) ≤ 1 := by
        rw [div_le_one hnq]
        exact hiq
      have h' := mul_le_mul_of_nonneg_left hfrac (by linarith : (0 : ℚ) ≤ d)
      simpa using h'

/-- With a non-empty boundary list inside `[0, d]`, every key moment computed
by the straight-line tail lies within `[0, 1.15*d]`. -/
theorem key_moment_bound (d : ℚ) (hd : 0 ≤ d) (B : List ℚ) (hne : B ≠ [])
    (hB : ∀ b ∈ B, 0 ≤ b ∧ b ≤ d) :
    ∀ t ∈ (analyze_scenes_core B d).key_moments, 0 ≤ t ∧ t ≤ 1.15 * d := by
  obtain ⟨b0, bs, rfl⟩ := List.exists_cons_of_ne_nil hne
  intro t ht
  rw [core_keys_cons] at ht
  simp only [List.mem_map] at ht
  obtain ⟨b, hbmem, rfl⟩ := ht
  have hb := hB b (List.take_subset 5 _ hbmem)
  have havg : (analyze_scenes_core (b0 :: bs) d).average_scene_length =
      d / ((((b0 :: bs).length : ℚ)) + 1) := core_avg _ _
  have hq2 : (2 : ℚ) ≤ (((b0 :: bs).length : ℚ)) + 1 := by
    have hlen : (1 : ℚ) ≤ (((b0 :: bs).length : ℚ)) := by
      exact_mod_cast List.length_pos.mpr (List.cons_ne_nil b0 bs)
    linarith
  have hqpos : (0 : ℚ) < (((b0 :: bs).length : ℚ)) + 1 := by linarith
  have hA : (analyze_scenes_core (b0 :: bs) d).average_scene_length *
      ((((b0 :: bs).length : ℚ)) + 1) = d := by
    rw [havg]
    field_simp
  have hA0 : 0 ≤ (analyze_scenes_core (b0 :: bs) d).average_scene_length := by
    rw [havg]
    exact div_nonneg hd hqpos.le
  constructor
  · have hb0 := hb.1
    linarith
  · nlinarith [mul_nonneg hA0 (by linarith : (0 : ℚ) ≤ (((b0 :: bs).length : ℚ)) + 1 - 2),
      hb.2, hA]

/-- Every recommended thumbnail is one of the first key moments or one of the
two extra candidate timestamps. -/
theorem mem_recommend (s : SceneAnalysis) (q : QualityMetrics) (d : ℚ) (x : ℚ)
    (hx : x ∈ recommend_thumbnails s q d) :
    x ∈ s.key_moments ∨ x = min 5 (d * 0.1) ∨ x = d / 2 := by
  unfold recommend_thumbnails at hx
  have hx1 := List.take_subset 5 _ hx
  rw [List.mem_insertionSort, List.mem_dedup] at hx1
  rcases List.mem_append.mp hx1 with h12 | h3
  · rcases List.mem_append.mp h12 with h1 | h2
    · exact Or.inl (List.take_subset 3 _ h1)
    · right; left
      split_ifs at h2 <;> simp_all
  · right; right
    split_ifs at h3 <;> simp_all

/-- C8 counterexample: with duration `100` and a detector boundary at `99`
(inside `[0, 100)` as the claim allows), the key moment is
`99 + (100/2)*0.3 = 114`, which exceeds the duration. -/
theorem C8_counterexample :
    (analyze_scenes (Except.ok "pts_time:99".data) 100).scene_boundaries = [99] ∧
    (0 : ℚ) ≤ 99 ∧ (99 : ℚ) < 100 ∧
    (analyze_scenes (Except.ok "pts_time:99".data) 100).key_moments = [114] ∧
    ¬ ((114 : ℚ) ≤ 100) := by
  have h1 : analyze_scenes (Except.ok "pts_time:99".data) 100 =
      analyze_scenes_core [99] 100 := by
    rw [analyze_scenes_ok_eq, parse_single_99]
    norm_num
  refine ⟨?_, by norm_num, by norm_num, ?_, by norm_num⟩
  · rw [h1, core_boundaries]
  · rw [h1, core_keys_cons, core_avg]
    norm_num

/-- C8 (amended): for nonnegative durations, all scene boundaries lie within
`[0, duration]`, but key moments and recommended thumbnails are only bounded
by `[0, 1.15*duration]`: a detector boundary close to the duration pushes its
key moment `boundary + averageSceneLength*0.3` past the duration by up to
`0.15*duration` (fallback-path timestamps do stay within `[0, duration]`). -/
theorem C8_timestamp_bounds (det : Except Unit (List Char)) (d : ℚ) (q : QualityMetrics)
    (hd : 0 ≤ d)
    (hdet : ∀ out, det = Except.ok out → ∀ b ∈ parse_scene_boundaries out, 0 ≤ b ∧ b < d) :
    (∀ b ∈ (analyze_scenes det d).scene_boundaries, 0 ≤ b ∧ b ≤ d) ∧
    (∀ t ∈ (analyze_scenes det d).key_moments, 0 ≤ t ∧ t ≤ 1.15 * d) ∧
    (∀ t ∈ recommend_thumbnails (analyze_scenes det d) q d, 0 ≤ t ∧ t ≤ 1.15 * d) := by
  have hmin : 0 ≤ min 10 (d * 0.2) ∧ min 10 (d * 0.2) ≤ 1.15 * d := by
    constructor
    · exact le_min (by norm_num) (by linarith)
    · calc min 10 (d * 0.2) ≤ d * 0.2 := min_le_right _ _
        _ ≤ 1.15 * d := by linarith
  have hBmain : (∀ b ∈ (analyze_scenes det d).scene_boundaries, 0 ≤ b ∧ b ≤ d) ∧
      (∀ t ∈ (analyze_scenes det d).key_moments, 0 ≤ t ∧ t ≤ 1.15 * d) := by
    cases det with
    | error e =>
      cases e
      rw [analyze_scenes_error_eq]
      refine ⟨fun b hb => fallback_scenes_bounds d hd b hb, ?_⟩
      intro t ht
      simp [fallback_scene_analysis] at ht
      subst ht
      exact hmin
    | ok out =>
      rw [analyze_scenes_ok_eq]
      have hpb := hdet out rfl
      have hBb : ∀ b ∈ (if (parse_scene_boundaries out).isEmpty
          then generate_fallback_scenes d else parse_scene_boundaries out),
          0 ≤ b ∧ b ≤ d := by
        split_ifs with hemp
        · exact fallback_scenes_bounds d hd
        · exact fun b hb => ⟨(hpb b hb).1, (hpb b hb).2.le⟩
      generalize hg : (if (parse_scene_boundaries out).isEmpty
          then generate_fallback_scenes d else parse_scene_boundaries out) = B at hBb ⊢
      constructor
      · intro b hb
        rw [core_boundaries] at hb
        exact hBb b hb
      · cases B with
        | nil =>
          intro t ht
          rw [core_keys_nil] at ht
          simp at ht
          subst ht
          exact hmin
        | cons b0 bs => exact key_moment_bound d hd _ (List.cons_ne_nil _ _) hBb
  refine ⟨hBmain.1, hBmain.2, ?_⟩
  intro t ht
  rcases mem_recommend _ q d t ht with hk | hx | hx
  · exact hBmain.2 t hk
  · subst hx
    constructor
    · exact le_min (by norm_num) (by linarith)
    · calc min 5 (d * 0.1) ≤ d * 0.1 := min_le_right _ _
        _ ≤ 1.15 * d := by linarith
  · subst hx
    constructor
    · linarith
    · linarith

/-- Witness for `C8_timestamp_bounds`: the key moment `65` of a concrete run
(duration 100, empty detector output) is within the amended bound. -/
theorem C8_timestamp_bounds_witness : (0 : ℚ) ≤ 65 ∧ (65 : ℚ) ≤ 1.15 * 100 := by
  have hdet : ∀ out, (Except.ok [] : Except Unit (List Char)) = Except.ok out →
      ∀ b ∈ parse_scene_boundaries out, 0 ≤ b ∧ b < 100 := by
    intro out h
    cases h
    rw [parse_empty]
    intro b hb
    simp at hb
  have hk : analyze_scenes (Except.ok []) 100 = analyze_scenes_core [50] 100 := by
    rw [analyze_scenes_ok_eq, parse_empty]
    norm_num [generate_fallback_scenes]
  refine (C8_timestamp_bounds (Except.ok []) 100 fallback_quality_assessment
    (by norm_num) hdet).2.1 65 ?_
  rw [hk, core_keys_cons, core_avg]
  norm_num

end VideoProc
